import Mathlib

/-!
Verification of the gbp-embed-automation pipeline.

This file gives a shallow embedding, in Lean, of the result-collection,
retry, concurrency-batching, persistence and URL-loading logic of the
repository, and proves (or refutes) the frozen claims about it.

Strings are modelled as lists of characters (`Str`).  Browser
interactions (page navigation, DOM queries, screenshots) are external
effects; each job execution is therefore parameterised by its outcome: an
`Except` value that is `.ok` with the data the page produced when every
awaited step succeeded, and `.error msg` when some step threw.  The
per-job bookkeeping (which records are appended to the shared results
collection, which files are written, which pages are opened and closed)
is translated directly from the JavaScript source.
-/

namespace GbpEmbed

/-- Strings are modelled as lists of characters. -/
abbrev Str := List Char

/-- Model of JavaScript `String.prototype.trim`: strip leading and trailing
whitespace. -/
def jsTrim (s : Str) : Str :=
  ((s.dropWhile Char.isWhitespace).reverse.dropWhile Char.isWhitespace).reverse

/-- Model of JavaScript `String.prototype.startsWith`. -/
def jsStartsWith (s p : Str) : Bool :=
  p.isPrefixOf s

/-- Lowercase a string; used to model the case-insensitive `/i` regex flag. -/
def lowerStr (s : Str) : Str :=
  s.map Char.toLower

/-- Model of `[...new Set(xs)]` in JavaScript: remove duplicates keeping the
first occurrence of each element, preserving order. -/
def jsSetDedup (l : List Str) : List Str :=
  l.foldl (fun acc x => if x ∈ acc then acc else acc ++ [x]) []

/-- True for the two JavaScript quote characters, double quote (34) and
single quote (39). -/
def isJsQuote (c : Char) : Bool :=
  c = Char.ofNat 34 || c = Char.ofNat 39

/-- Simplified model of Node `path.join` on two components: concatenate with
a single slash separator, dropping a trailing slash on the first component. -/
def pathJoin (a b : Str) : Str :=
  (if a.getLast? = some (Char.ofNat 47) then a.dropLast else a) ++ Char.ofNat 47 :: b

/-- Lifecycle events of a per-job browser page.  `browser.newPage()` emits
`opened`; `page.close()` emits `closed`. -/
inductive PageEvent where
  | opened
  | closed
deriving DecidableEq

/-! ## Model of `scraper.js` (src/unnamed/part_000), class `GBPIframeScraper` -/

namespace Part000

/-- Model of `GBPIframeScraper.isGoogleMapsEmbed`.  The source returns
`false` for a falsy argument (`null`, `undefined`, the empty string), then
tests the URL against two anchored case-insensitive regex patterns, which
amount to startsWith checks against four literal prefixes on the lowered
string.  `none` models `null` and `undefined`. -/
def isGoogleMapsEmbed : Option Str → Bool
  | none => false
  | some url =>
    if url = [] then false
    else
      jsStartsWith (lowerStr url) ("http://www.google.com/maps/embed".toList)
        || jsStartsWith (lowerStr url) ("https://www.google.com/maps/embed".toList)
        || jsStartsWith (lowerStr url) ("http://maps.google.com/maps".toList)
        || jsStartsWith (lowerStr url) ("https://maps.google.com/maps".toList)

/-- Drop one leading JavaScript quote character, if present. -/
def dropLeadingQuote : Str → Str
  | [] => []
  | c :: rest => if isJsQuote c then rest else c :: rest

/-- Drop one trailing JavaScript quote character, if present. -/
def dropTrailingQuote (s : Str) : Str :=
  (dropLeadingQuote s.reverse).reverse

/-- Model of `GBPIframeScraper.normalizeUrl`: a falsy input maps to the
empty string; otherwise trim, then strip one leading and one trailing quote
character, which is what the global anchored quote-stripping regex of the
source does. -/
def normalizeUrl (url : Str) : Str :=
  if url = [] then [] else dropTrailingQuote (dropLeadingQuote (jsTrim url))

/-- Model of `GBPIframeScraper.extractIframeSources`.  The two regex patterns scan the
HTML for `iframe` tags and yield a sequence of raw `src` captures; that raw
sequence, produced by the regex engine, is the `candidates` argument here.
The function keeps the candidates that are truthy and pass
`isGoogleMapsEmbed`, then removes duplicates via `[...new Set(...)]`. -/
def extractIframeSources (candidates : List Str) : List Str :=
  jsSetDedup (candidates.filter (fun src => !(src = []) && isGoogleMapsEmbed (some src)))

/-- One `iframe` element of the scraped page as the two page evaluations see
it: `srcProp` is the DOM property `iframe.src` and `srcAttr` is
`iframe.getAttribute("src")` (empty list when absent). -/
structure DomIframe where
  srcProp : Str
  srcAttr : Str
deriving DecidableEq

/-- One row of the shared results collection `this.results`. -/
structure ResultRec where
  url : Str
  iframe_src : Str
  found_at : Str
  status : Str
deriving DecidableEq

/-- One row of the error collection `this.errors`. -/
structure ErrorRec where
  url : Str
  error : Str
  timestamp : Str
deriving DecidableEq

/-- The mutable state of a `GBPIframeScraper` instance. -/
structure ScraperState where
  results : List ResultRec
  errors : List ErrorRec
  onlyGBPSuccessRecords : List ResultRec
deriving DecidableEq

/-- The first page evaluation of `scrapeUrl`: for each `iframe` element take
`iframe.src || iframe.getAttribute("src")` and keep it when truthy. -/
def domSources (domIframes : List DomIframe) : List Str :=
  domIframes.filterMap (fun f =>
    let src := if f.srcProp ≠ [] then f.srcProp else f.srcAttr
    if src ≠ [] then some src else none)

/-- The second page evaluation of `scrapeUrl`: the `src` attributes of the
iframes whose attribute starts with one of the two literal `https` embed
prefixes. -/
def matchingIframeSrcs (domIframes : List DomIframe) : List Str :=
  (domIframes.map (fun f => f.srcAttr)).filter (fun src =>
    jsStartsWith src ("https://www.google.com/maps/embed".toList)
      || jsStartsWith src ("https://maps.google.com/maps".toList))

/-- Computation of `uniqueSources` inside `scrapeUrl`: regex sources and DOM
sources combined, filtered by `isGoogleMapsEmbed`, deduplicated. -/
def uniqueSources (candidates : List Str) (domIframes : List DomIframe) : List Str :=
  jsSetDedup ((extractIframeSources candidates ++ domSources domIframes).filter
    (fun src => isGoogleMapsEmbed (some src)))

/-- Model of `GBPIframeScraper.scrapeUrl`.  The `page` argument is the outcome of the
awaited browser steps: `.ok (candidates, domIframes)` carries the raw regex
captures of the page HTML and the iframes found in the DOM; `.error msg`
models any exception thrown inside the `try` block.  The function returns
the updated scraper state together with the page lifecycle events: the page
is opened by `browser.newPage()` and closed in the `finally` block. -/
def scrapeUrl (now url : Str) (page : Except Str (List Str × List DomIframe))
    (st : ScraperState) : ScraperState × List PageEvent :=
  match page with
  | .ok (candidates, domIframes) =>
    if 0 < (uniqueSources candidates domIframes).length then
      let newRecords := (matchingIframeSrcs domIframes).filterMap (fun src =>
        if 0 < src.length then
          some ⟨url, normalizeUrl src, now, "success".toList⟩
        else none)
      ({ st with results := st.results ++ newRecords }, [.opened, .closed])
    else
      ({ st with results := st.results ++ [⟨url, [], now, "no_iframe_found".toList⟩] },
        [.opened, .closed])
  | .error msg =>
    ({ st with
        errors := st.errors ++ [⟨url, msg, now⟩],
        results := st.results ++ [⟨url, [], now, "error".toList⟩] },
      [.opened, .closed])

/-- The per-row body of `GBPIframeScraper.readUrlsFromCsv`: given the value
of the first column of a row, skip the row when the value is falsy or
whitespace-only, otherwise trim it and prepend `https://` unless it already
starts with `http://` or `https://`. -/
def rowUrl (url : Str) : Option Str :=
  if url ≠ [] ∧ jsTrim url ≠ [] then
    if !jsStartsWith (jsTrim url) ("http://".toList)
        && !jsStartsWith (jsTrim url) ("https://".toList) then
      some (("https://".toList) ++ jsTrim url)
    else
      some (jsTrim url)
  else none

/-- Model of `GBPIframeScraper.readUrlsFromCsv` over the first-column values of the
CSV rows. -/
def readUrlsFromCsv (rows : List Str) : List Str :=
  rows.filterMap rowUrl

/-- One CSV file written by the result sink: target path, header titles, and
the serialized rows. -/
structure CsvFile where
  path : Str
  header : List Str
  rows : List (List Str)
deriving DecidableEq

/-- Model of `GBPIframeScraper.saveResultsToCsv`: write the results CSV, then set
`this.onlyGBPSuccessRecords` to the results with a non-empty iframe source,
then write the errors CSV when any error was collected.  Returns the updated
state and the files written. -/
def saveResultsToCsv (outputPath : Str) (st : ScraperState) : ScraperState × List CsvFile :=
  let mainFile : CsvFile :=
    ⟨outputPath,
      ["URL".toList, "GBP_Iframe_Source".toList, "Scraped_At".toList, "Status".toList],
      st.results.map (fun r => [r.url, r.iframe_src, r.found_at, r.status])⟩
  let st2 := { st with
    onlyGBPSuccessRecords := st.results.filter (fun r => 0 < r.iframe_src.length) }
  if st.errors ≠ [] then
    let errorFile : CsvFile :=
      ⟨"./gbp_logs/gbp_scraping_errors.csv".toList,
        ["URL".toList, "Error".toList, "Timestamp".toList],
        st.errors.map (fun e => [e.url, e.error, e.timestamp])⟩
    (st2, [mainFile, errorFile])
  else
    (st2, [mainFile])

/-- The batching loop of `GBPIframeScraper.scrape`: `for (let i = 0; i <
urls.length; i += concurrency) { const batch = urls.slice(i, i + concurrency);
await Promise.all(batch.map(...)); }` with the hard-coded `concurrency = 3`.
Each recursive step yields one batch of at most three jobs. -/
def scrapeBatches {α : Type} : List α → List (List α)
  | [] => []
  | u :: urls => ((u :: urls).take 3) :: scrapeBatches ((u :: urls).drop 3)
termination_by l => l.length
decreasing_by simp [List.length_drop]; omega

/-- Peak number of jobs simultaneously in flight during the batched run: each
batch is dispatched with `Promise.all` and fully awaited before the next
batch starts, so the set of in-flight jobs at any instant is contained in a
single batch. -/
def maxInFlight {α : Type} (urls : List α) : Nat :=
  ((scrapeBatches urls).map List.length).foldr max 0

/-- Trace of one full `GBPIframeScraper.scrape` run: its return value (or
thrown error), the number of `scrapeUrl` jobs dispatched, and the files
written by the result sink. -/
structure ScrapeOutcome where
  result : Except Str (List ResultRec)
  jobsRun : Nat
  savedFiles : List CsvFile

/-- Model of `GBPIframeScraper.scrape` on an already-loaded URL list: throw
`No URLs found to scrape` when the list is empty, before anything is
dispatched or saved; otherwise run every URL through `scrapeUrl` in batches
of three, save the results, and return `this.results`.  `pageOf` gives each
job its page outcome. -/
def scrape (now : Str) (urls : List Str)
    (pageOf : Str → Except Str (List Str × List DomIframe)) (outputPath : Str) :
    ScrapeOutcome :=
  if urls.length = 0 then
    ⟨.error ("No URLs found to scrape".toList), 0, []⟩
  else
    let stFinal := (scrapeBatches urls).foldl
      (fun st batch => batch.foldl (fun st2 u => (scrapeUrl now u (pageOf u) st2).1) st)
      ⟨[], [], []⟩
    let saved := saveResultsToCsv outputPath stFinal
    ⟨.ok saved.1.results, ((scrapeBatches urls).map List.length).sum, saved.2⟩

end Part000

/-! ## Model of `gbp_browser_search_screenshot.js`, class `GoogleBusinessProfileScraper` -/

namespace BrowserSearch

/-- Retry loop of `GoogleBusinessProfileScraper.searchGoogleBusiness` in
`gbp_browser_search_screenshot.js`: `attempt k` is the outcome of the whole
interaction sequence on the attempt with retry counter `k`.  On an error,
when `retryCount < maxRetries` the method calls itself with
`retryCount + 1`; otherwise it rethrows the last error. -/
def searchGoogleBusiness {A : Type} (attempt : Nat → Except Str A)
    (maxRetries retryCount : Nat) : Except Str A :=
  match attempt retryCount with
  | .ok a => .ok a
  | .error e =>
    if retryCount < maxRetries then searchGoogleBusiness attempt maxRetries (retryCount + 1)
    else .error e
termination_by maxRetries + 1 - retryCount
decreasing_by omega

/-- Return value of `takeViewportScreenshot` and `handleSeePhotos`: a flag,
the saved file path on success, and the error message on failure. -/
structure Screenshot where
  success : Bool
  filepath : Option Str
  error : Option Str
deriving DecidableEq

/-- One input CSV record of the browser-search screenshot stage. -/
structure BSRecord where
  Name_Address : Str
  Business_Name : Str
  URL : Str
  Place_ID : Str
deriving DecidableEq

/-- One entry of `this.results` in the browser-search screenshot stage. -/
structure ProcResult where
  index : Nat
  name_address : Str
  business_name : Str
  url : Str
  place_id : Str
  processed_at : Str
  screenshot : Screenshot
  status : Str
  error : Option Str
deriving DecidableEq

/-- Model of `GoogleBusinessProfileScraper.processRecord`: pick the search
term (`Name_Address || Business_Name`), throw when it is missing, run the
search (its post-retry outcome is `jobOutcome`), and push exactly one
processed or error result onto `this.results`. -/
def processRecord (now : Str) (jobOutcome : Except Str Screenshot)
    (record : BSRecord) (index : Nat) (results : List ProcResult) : List ProcResult :=
  let searchTerm := if record.Name_Address ≠ [] then record.Name_Address
                    else record.Business_Name
  let errorResult := fun (msg : Str) =>
    (⟨index + 1,
      (if record.Name_Address ≠ [] then record.Name_Address else "N/A".toList),
      (if record.Business_Name ≠ [] then record.Business_Name else "N/A".toList),
      record.URL, record.Place_ID, now,
      ⟨false, none, some msg⟩, "error".toList, some msg⟩ : ProcResult)
  if searchTerm = [] then
    results ++ [errorResult ("No Name_Address or Business_Name field found in record".toList)]
  else
    match jobOutcome with
    | .ok result =>
      results ++ [⟨index + 1, searchTerm, record.Business_Name, record.URL,
        record.Place_ID, now, result,
        (if result.success then "success".toList else "failed".toList), none⟩]
    | .error msg => results ++ [errorResult msg]

/-- One JSON file written by `GoogleBusinessProfileScraper.saveResults`:
`processing_results.json` inside the screenshot directory, holding the
serialized results collection. -/
structure SavedJson where
  path : Str
  content : List ProcResult
deriving DecidableEq

/-- Model of `GoogleBusinessProfileScraper.saveResults`: serialize the whole
results collection to `processing_results.json` in the screenshot
directory.  The instance state is not modified. -/
def saveResults (screenshotDir : Str) (results : List ProcResult) : SavedJson :=
  ⟨pathJoin screenshotDir ("processing_results.json".toList), results⟩

/-- Model of `GoogleBusinessProfileScraper.processAllRecords`: when the CSV
yields no record, log a warning and return early — no job is dispatched and
nothing is saved, and no error is thrown.  Otherwise process every record
sequentially, saving intermediate results every ten records and once at the
end.  Returns the final results collection, the number of `processRecord`
calls, and the files written; the `Except` layer carries the rethrown
batch-level errors (none arise once the records are loaded). -/
def processAllRecords (now screenshotDir : Str)
    (jobOutcome : BSRecord → Except Str Screenshot) (records : List BSRecord) :
    Except Str (List ProcResult × Nat × List SavedJson) :=
  if records.length = 0 then
    .ok ([], 0, [])
  else
    let step := fun (acc : List ProcResult × Nat × List SavedJson) (ir : Nat × BSRecord) =>
      let results2 := processRecord now (jobOutcome ir.2) ir.2 ir.1 acc.1
      let saved2 := if (ir.1 + 1) % 10 = 0 then
          acc.2.2 ++ [saveResults screenshotDir results2]
        else acc.2.2
      (results2, acc.2.1 + 1, saved2)
    let looped := records.enum.foldl step ([], 0, [])
    .ok (looped.1, looped.2.1, looped.2.2 ++ [saveResults screenshotDir looped.1])

end BrowserSearch

/-! ## Model of the social-links variant (src/unnamed/part_001 and
`gbp_browser_search_screenshot_based_on_social_links.js`) -/

namespace SocialLinks

/-- Fueled model of `searchGoogleBusiness` in the social-links variant.  Its
recursive call is `this.searchGoogleBusiness(nameAddress, 3, retryCount + 1,
index)`: relative to the parameter list `(nameAddress, retryCount, index,
searchTerm, record)` the arguments are shifted, so the `retryCount`
parameter of every recursive call receives the literal `3`.  The `fuel`
argument only bounds the modelled execution: a result of `none` means the
recursion has not terminated within `fuel` calls, so a `none` for every
`fuel` is nontermination. -/
def searchGoogleBusinessFuel {A : Type} (attempt : Nat → Except Str A)
    (maxRetries : Nat) : Nat → Nat → Option (Except Str A)
  | _, 0 => none
  | retryCount, fuel + 1 =>
    match attempt retryCount with
    | .ok a => some (.ok a)
    | .error e =>
      if retryCount < maxRetries then
        searchGoogleBusinessFuel attempt maxRetries 3 fuel
      else some (.error e)

end SocialLinks

/-! ## Model of `gbp_location_screenshot.js`, class `GoogleMapsDirectionsScreenshot` -/

namespace GbpLocation

/-- One record loaded by `readEnhancedCsv`. -/
structure LocRecord where
  url : Str
  city : Str
  businessName : Str
  searchUrl : Str
deriving DecidableEq

/-- One entry of `this.results` in the directions-screenshot stage. -/
structure LocResult where
  url : Str
  business_name : Str
  search_url : Str
  screenshot_path : Str
  city : Str
  screenshot_status : Str
  processed_at : Str
  starting_point : Str
  error_message : Str
deriving DecidableEq

/-- One entry of `this.errors` in the directions-screenshot stage. -/
structure LocError where
  business_name : Str
  search_url : Str
  error : Str
  timestamp : Str
deriving DecidableEq

/-- The mutable state of a `GoogleMapsDirectionsScreenshot` instance. -/
structure LocState where
  results : List LocResult
  errors : List LocError
deriving DecidableEq

/-- Replace every maximal whitespace run by a single underscore, as the
regex replacement of whitespace runs does.  The flag records whether the
previous character was whitespace. -/
def underscoreWsAux : Bool → Str → Str
  | _, [] => []
  | prevWs, c :: rest =>
    if c.isWhitespace then
      if prevWs then underscoreWsAux true rest
      else Char.ofNat 95 :: underscoreWsAux true rest
    else c :: underscoreWsAux false rest

/-- Sanitized business name used in the screenshot file name: drop every
character that is not ASCII alphanumeric or whitespace, then replace each
whitespace run by one underscore. -/
def sanitizeBusinessName (s : Str) : Str :=
  underscoreWsAux false (s.filter (fun c => c.isAlphanum || c.isWhitespace))

/-- Screenshot file path computed at the start of
`captureDirectionsScreenshot`: the screenshot directory joined with
`sanitizedBusinessName_timestamp_directions.png`, where `ts` stands for the
sanitized ISO timestamp. -/
def directionsScreenshotPath (screenshotDirPath ts businessName : Str) : Str :=
  pathJoin screenshotDirPath
    (sanitizeBusinessName businessName ++ (Char.ofNat 95 :: ts)
      ++ "_directions.png".toList)

/-- Model of `GoogleMapsDirectionsScreenshot.captureDirectionsScreenshot`.
`navOutcome` is the outcome of the awaited navigation, interaction and
screenshot steps inside the `try` block.  On success one success result is
pushed, carrying the screenshot path; in the `catch` block one error result
with an empty `screenshot_path` and the error message is pushed, plus one
entry on `this.errors`; the exception is not rethrown.  The `finally` block
closes the per-job page, so the lifecycle events are `[opened, closed]` on
both paths. -/
def captureDirectionsScreenshot (now ts startingPoint screenshotDirPath : Str)
    (record : LocRecord) (navOutcome : Except Str Unit) (st : LocState) :
    LocState × List PageEvent :=
  let businessName := if record.businessName ≠ [] then record.businessName
                      else "Unknown".toList
  let screenshotPath := directionsScreenshotPath screenshotDirPath ts businessName
  match navOutcome with
  | .ok _ =>
    ({ st with results := st.results ++
        [⟨record.url, businessName, record.searchUrl, screenshotPath, record.city,
          "success".toList, now, startingPoint, []⟩] },
      [.opened, .closed])
  | .error msg =>
    ({ st with
        results := st.results ++
          [⟨record.url, businessName, record.searchUrl, [], record.city,
            "error".toList, now, startingPoint, msg⟩],
        errors := st.errors ++ [⟨businessName, record.searchUrl, msg, now⟩] },
      [.opened, .closed])

/-- The single result appended by one `captureDirectionsScreenshot` call. -/
def capturedResult (now ts startingPoint screenshotDirPath : Str)
    (record : LocRecord) (navOutcome : Except Str Unit) : LocResult :=
  let businessName := if record.businessName ≠ [] then record.businessName
                      else "Unknown".toList
  match navOutcome with
  | .ok _ =>
    ⟨record.url, businessName, record.searchUrl,
      directionsScreenshotPath screenshotDirPath ts businessName, record.city,
      "success".toList, now, startingPoint, []⟩
  | .error msg =>
    ⟨record.url, businessName, record.searchUrl, [], record.city,
      "error".toList, now, startingPoint, msg⟩

/-- JSON summary written by `generateReport`.  The source counts
`results.filter(r => r.success)`: direction results have no `success`
field, so that filter is empty and the success count is zero while the
failed count is the total, mirroring the source faithfully. -/
structure DirectionsSummary where
  totalProcessed : Nat
  successful : Nat
  failed : Nat
  results : List LocResult
deriving DecidableEq

/-- Model of `GoogleMapsDirectionsScreenshot.generateReport`. -/
def generateReport (results : List LocResult) : DirectionsSummary :=
  ⟨results.length, 0, results.length, results⟩

/-- Model of
`GoogleMapsDirectionsScreenshot.processDirectionsScreenshots`: throw when no
record carries a search URL; otherwise run every record sequentially through
`captureDirectionsScreenshot`, then always write the report and return
`this.results`. -/
def processDirectionsScreenshots (now ts startingPoint screenshotDirPath : Str)
    (navOutcome : LocRecord → Except Str Unit) (records : List LocRecord) :
    Except Str (DirectionsSummary × List LocResult) :=
  if records.length = 0 then
    .error ("No records with Search URLs found in the CSV file".toList)
  else
    let stFinal := records.foldl
      (fun st r =>
        (captureDirectionsScreenshot now ts startingPoint screenshotDirPath r
          (navOutcome r) st).1)
      ⟨[], []⟩
    .ok (generateReport stFinal.results, stFinal.results)

end GbpLocation

/-! ## Helper lemmas -/

/-- A list is a prefix of itself followed by anything. -/
theorem jsStartsWith_append (p s : Str) : jsStartsWith (p ++ s) p = true := by
  induction p with
  | nil => simp [jsStartsWith, List.isPrefixOf]
  | cons c cs ih =>
    simp only [jsStartsWith, List.cons_append, List.isPrefixOf, beq_self_eq_true,
      Bool.true_and]
    exact ih

/-- A string that starts with a non-empty prefix is non-empty. -/
theorem jsStartsWith_ne_nil (s : Str) (c : Char) (p : Str)
    (h : jsStartsWith s (c :: p) = true) : s ≠ [] := by
  intro hs
  subst hs
  simp [jsStartsWith, List.isPrefixOf] at h

/-- Elements of the dedup fold come from the accumulator or the list. -/
theorem mem_foldlDedup (l : List Str) : ∀ (acc : List Str) (x : Str),
    x ∈ l.foldl (fun a y => if y ∈ a then a else a ++ [y]) acc → x ∈ acc ∨ x ∈ l := by
  induction l with
  | nil => intro acc x h; simp only [List.foldl] at h; exact Or.inl h
  | cons y ys ih =>
    intro acc x h
    simp only [List.foldl] at h
    rcases ih _ x h with h2 | h2
    · by_cases hy : y ∈ acc
      · simp only [hy, if_true] at h2; exact Or.inl h2
      · simp only [hy, if_false] at h2
        rcases List.mem_append.mp h2 with h3 | h3
        · exact Or.inl h3
        · simp only [List.mem_singleton] at h3; subst h3; exact Or.inr (by simp)
    · exact Or.inr (by simp [h2])

/-- The dedup fold preserves the no-duplicates invariant of the accumulator. -/
theorem nodup_foldlDedup (l : List Str) : ∀ acc : List Str, acc.Nodup →
    (l.foldl (fun a y => if y ∈ a then a else a ++ [y]) acc).Nodup := by
  induction l with
  | nil => intro acc h; simpa using h
  | cons y ys ih =>
    intro acc h
    simp only [List.foldl]
    apply ih
    by_cases hy : y ∈ acc
    · simpa [hy] using h
    · simp [hy, List.nodup_append, h]

/-- Membership after JavaScript Set dedup implies membership before. -/
theorem mem_jsSetDedup (l : List Str) (x : Str) (h : x ∈ jsSetDedup l) : x ∈ l := by
  rcases mem_foldlDedup l [] x h with h2 | h2
  · simp at h2
  · exact h2

/-- JavaScript Set dedup yields a list without duplicates. -/
theorem jsSetDedup_nodup (l : List Str) : (jsSetDedup l).Nodup :=
  nodup_foldlDedup l [] List.nodup_nil

/-- Every batch produced by the slicing loop has at most three elements. -/
theorem scrapeBatches_length_le {α : Type} (l : List α) (b : List α)
    (hb : b ∈ Part000.scrapeBatches l) : b.length ≤ 3 := by
  induction l using Part000.scrapeBatches.induct with
  | case1 => simp [Part000.scrapeBatches] at hb
  | case2 a as ih =>
    rw [Part000.scrapeBatches] at hb
    rcases List.mem_cons.mp hb with h | h
    · subst h; exact List.length_take_le 3 _
    · exact ih h

/-- Concatenating the batches gives back the original URL list: every job is
dispatched exactly once. -/
theorem scrapeBatches_flatten {α : Type} (l : List α) :
    (Part000.scrapeBatches l).flatten = l := by
  induction l using Part000.scrapeBatches.induct with
  | case1 => simp [Part000.scrapeBatches]
  | case2 a as ih =>
    rw [Part000.scrapeBatches]
    simp only [List.flatten_cons, ih]
    exact List.take_append_drop 3 _

/-- A fold of `max` over numbers all at most three is at most three. -/
theorem foldr_max_le (l : List Nat) (h : ∀ x ∈ l, x ≤ 3) : l.foldr max 0 ≤ 3 := by
  induction l with
  | nil => simp
  | cons a as ih =>
    simp only [List.foldr]
    exact max_le (h a (by simp)) (ih fun x hx => h x (by simp [hx]))

/-- Length of the guarded `filterMap` in the success branch of `scrapeUrl`
when every source is non-empty. -/
theorem filterMap_length_of_pos {β : Type} (f : Str → β) :
    ∀ l : List Str, (∀ s ∈ l, 0 < s.length) →
      (l.filterMap (fun src => if 0 < src.length then some (f src) else none)).length
        = l.length := by
  intro l
  induction l with
  | nil => intro _; simp
  | cons s ss ih =>
    intro h
    have hs : 0 < s.length := h s (by simp)
    simp only [List.filterMap_cons, hs, if_true]
    simp only [List.length_cons]
    rw [ih fun x hx => h x (by simp [hx])]

/-- Every source selected by the second page evaluation is non-empty, since
it starts with a literal `https` prefix. -/
theorem matchingIframeSrcs_pos (doms : List Part000.DomIframe) :
    ∀ s ∈ Part000.matchingIframeSrcs doms, 0 < s.length := by
  intro s hs
  have h := (List.mem_filter.mp hs).2
  rcases Bool.or_eq_true_iff.mp h with h2 | h2
  · have := jsStartsWith_ne_nil s _ _ h2
    cases s with
    | nil => exact absurd rfl this
    | cons c cs => simp
  · have := jsStartsWith_ne_nil s _ _ h2
    cases s with
    | nil => exact absurd rfl this
    | cons c cs => simp

/-- Each call of the directions screenshot job appends exactly the captured
result to the results collection. -/
theorem captureDirectionsScreenshot_results (now ts sp dir : Str)
    (record : GbpLocation.LocRecord) (o : Except Str Unit) (st : GbpLocation.LocState) :
    (GbpLocation.captureDirectionsScreenshot now ts sp dir record o st).1.results
      = st.results ++ [GbpLocation.capturedResult now ts sp dir record o] := by
  cases o <;> rfl

/-- The sequential directions loop maps each record to its captured result. -/
theorem foldl_capture_results (now ts sp dir : Str)
    (f : GbpLocation.LocRecord → Except Str Unit) :
    ∀ (records : List GbpLocation.LocRecord) (st : GbpLocation.LocState),
      (records.foldl
        (fun s r => (GbpLocation.captureDirectionsScreenshot now ts sp dir r (f r) s).1)
        st).results
      = st.results ++ records.map (fun r => GbpLocation.capturedResult now ts sp dir r (f r)) := by
  intro records
  induction records with
  | nil => intro st; simp
  | cons r rs ih =>
    intro st
    simp only [List.foldl, List.map]
    rw [ih, captureDirectionsScreenshot_results]
    simp

/-- When every attempt fails, the browser-search retry loop stops at the
attempt whose counter equals `maxRetries` and rethrows that last error. -/
theorem search_error_exhausts {A : Type} (m : Nat → Str) (mR : Nat) :
    ∀ rc, rc ≤ mR →
      BrowserSearch.searchGoogleBusiness (fun k => (Except.error (m k) : Except Str A)) mR rc
        = Except.error (m mR) := by
  have key : ∀ d rc, mR - rc = d → rc ≤ mR →
      BrowserSearch.searchGoogleBusiness (fun k => (Except.error (m k) : Except Str A)) mR rc
        = Except.error (m mR) := by
    intro d
    induction d with
    | zero =>
      intro rc h1 h2
      have hrc : rc = mR := by omega
      subst hrc
      rw [BrowserSearch.searchGoogleBusiness]
      simp
    | succ d ih =>
      intro rc h1 h2
      have hlt : rc < mR := by omega
      rw [BrowserSearch.searchGoogleBusiness]
      simp only [hlt, if_true]
      exact ih (rc + 1) (by omega) (by omega)
  intro rc h
  exact key (mR - rc) rc rfl h

/-- With an always-failing attempt and `maxRetries = 4`, the social-links
retry recursion never terminates: the shifted recursive call pins the retry
counter at the literal `3`, which stays below `maxRetries` forever. -/
theorem social_retry_diverges (e : Str) : ∀ fuel : Nat,
    SocialLinks.searchGoogleBusinessFuel (fun _ => (Except.error e : Except Str Unit)) 4 3 fuel
      = none := by
  intro fuel
  induction fuel with
  | zero => rfl
  | succ f ih =>
    rw [SocialLinks.searchGoogleBusinessFuel]
    simpa using ih

/-! ## The claims -/

/-- Claim C1, amended.  In `GBPIframeScraper.scrapeUrl` the error path and
the no-iframe-found path each append exactly one outcome record to the
shared results collection, but the success path appends one record per DOM
iframe whose `src` attribute starts with one of the two literal `https`
embed prefixes — possibly zero records and possibly several — so
exactly-one-outcome-per-dispatched-job fails on the success path. -/
theorem claim_C1 (now url msg : Str) (candidates : List Str)
    (doms : List Part000.DomIframe) (st : Part000.ScraperState) :
    ((Part000.scrapeUrl now url (Except.error msg) st).1.results.length
        = st.results.length + 1)
    ∧ (Part000.uniqueSources candidates doms = [] →
        (Part000.scrapeUrl now url (Except.ok (candidates, doms)) st).1.results.length
          = st.results.length + 1)
    ∧ (Part000.uniqueSources candidates doms ≠ [] →
        (Part000.scrapeUrl now url (Except.ok (candidates, doms)) st).1.results.length
          = st.results.length + (Part000.matchingIframeSrcs doms).length) := by
  refine ⟨?_, ?_, ?_⟩
  · simp [Part000.scrapeUrl]
  · intro h
    simp [Part000.scrapeUrl, h]
  · intro h
    have hlen : 0 < (Part000.uniqueSources candidates doms).length :=
      List.length_pos.mpr h
    simp only [Part000.scrapeUrl, hlen, if_true, List.length_append]
    rw [filterMap_length_of_pos
      (fun src => (⟨url, Part000.normalizeUrl src, now, "success".toList⟩ : Part000.ResultRec))
      (Part000.matchingIframeSrcs doms) (matchingIframeSrcs_pos doms)]

/-- Claim C1 counterexample: a dispatched job whose page holds exactly one
Google-Maps iframe with the `http` (not `https`) scheme passes the
`isGoogleMapsEmbed` filter, so the success branch runs, but the iframe fails
the `https`-only attribute filter, so zero outcome records are appended for
this job — the outcome is dropped, refuting exactly one outcome per job. -/
theorem claim_C1_counterexample :
    ((Part000.scrapeUrl [] ("https://example.com".toList)
        (Except.ok (["http://maps.google.com/maps".toList],
          [⟨"http://maps.google.com/maps".toList, "http://maps.google.com/maps".toList⟩]))
        ⟨[], [], []⟩).1.results).length = 0 := by
  decide

/-- Witness for claim C1 at a concrete input: a page with no iframe at all
appends exactly one no-iframe-found record. -/
theorem claim_C1_witness :
    (Part000.scrapeUrl [] [] (Except.ok ([], [])) ⟨[], [], []⟩).1.results.length = 1 := by
  have h := (claim_C1 [] [] [] [] [] ⟨[], [], []⟩).2.1 (by decide)
  simpa using h

/-- Claim C2, code bug in the social-links variant.  First conjunct: in
part_001, with `maxRetries = 4` and every attempt failing, the retry
recursion started with retry counter 3 (the value `processRecord` passes)
returns within no finite fuel — it retries indefinitely, because the
shifted recursive call passes the literal 3 as the retry counter.  Second
conjunct: the intended retry policy, realized by
`gbp_browser_search_screenshot.js`: when every attempt fails, the loop
stops after the attempt whose counter equals `maxRetries` (so at most
`maxRetries` retries) and rethrows the error of that last attempt. -/
theorem claim_C2 :
    (∀ (e : Str) (fuel : Nat),
        SocialLinks.searchGoogleBusinessFuel
          (fun _ => (Except.error e : Except Str Unit)) 4 3 fuel = none)
    ∧ (∀ (m : Nat → Str) (mR : Nat),
        BrowserSearch.searchGoogleBusiness
          (fun k => (Except.error (m k) : Except Str Unit)) mR 0
          = Except.error (m mR)) :=
  ⟨fun e => social_retry_diverges e,
   fun m mR => search_error_exhausts m mR 0 (Nat.zero_le _)⟩

/-- Claim C3.  The batching loop of `GBPIframeScraper.scrape` dispatches the
URLs in slices of the hard-coded concurrency bound three and awaits each
slice completely before starting the next, so the set of jobs in flight at
any instant is contained in one batch; the peak in-flight count therefore
never exceeds three, and every URL is dispatched in exactly one batch. -/
theorem claim_C3 {α : Type} (urls : List α) :
    Part000.maxInFlight urls ≤ 3 ∧ (Part000.scrapeBatches urls).flatten = urls := by
  constructor
  · apply foldr_max_le
    intro x hx
    rcases List.mem_map.mp hx with ⟨b, hb, he⟩
    subst he
    exact scrapeBatches_length_le urls b hb
  · exact scrapeBatches_flatten urls

/-- Claim C4.  Exceptions are contained at the job boundary.  For the
directions pipeline: whatever each per-job outcome is, the batch driver
returns normally with the report (the reporting phase is reached), the
final results are the per-record captured results — so each outcome depends
only on the own job of that record and failures never affect siblings —
and a failing job yields a status-error outcome carrying its message.  For
`GBPIframeScraper.scrapeUrl`: a thrown exception is converted into an
appended status-error record and is not rethrown. -/
theorem claim_C4 (now ts sp dir : Str) (f : GbpLocation.LocRecord → Except Str Unit)
    (records : List GbpLocation.LocRecord) (h : records ≠ [])
    (url msg : Str) (st : Part000.ScraperState) :
    (GbpLocation.processDirectionsScreenshots now ts sp dir f records
        = Except.ok
            (GbpLocation.generateReport
              (records.map fun r => GbpLocation.capturedResult now ts sp dir r (f r)),
              records.map fun r => GbpLocation.capturedResult now ts sp dir r (f r)))
    ∧ (∀ (r : GbpLocation.LocRecord) (m : Str), f r = Except.error m →
        (GbpLocation.capturedResult now ts sp dir r (f r)).screenshot_status
            = ("error".toList)
          ∧ (GbpLocation.capturedResult now ts sp dir r (f r)).error_message = m)
    ∧ ((Part000.scrapeUrl now url (Except.error msg) st).1.results
        = st.results ++ [⟨url, [], now, ("error".toList)⟩]) := by
  refine ⟨?_, ?_, rfl⟩
  · have hlen : ¬ records.length = 0 := by
      simpa [List.length_eq_zero] using h
    simp only [GbpLocation.processDirectionsScreenshots, hlen, if_false]
    rw [foldl_capture_results]
    simp
  · intro r m hm
    rw [hm]
    exact ⟨rfl, rfl⟩

/-- Witness for claim C4 at a concrete input: a record whose job throws is
captured as a status-error outcome. -/
theorem claim_C4_witness :
    (GbpLocation.capturedResult [] [] [] [] ⟨[], [], [], []⟩
        (Except.error ("boom".toList))).screenshot_status = ("error".toList) := by
  have h := (claim_C4 [] [] [] [] (fun _ => Except.error ("boom".toList))
      [⟨[], [], [], []⟩] (by decide) [] [] ⟨[], [], []⟩).2.1
      ⟨[], [], [], []⟩ ("boom".toList) rfl
  exact h.1

/-- Claim C5.  In every outcome whose status is not success, the artifact
reference is empty: in `scrapeUrl` a record appended with a status other
than success has an empty `iframe_src`, and in the directions pipeline a
captured result whose status is not success has an empty
`screenshot_path`.  Equivalently, an artifact path is populated only in
success outcomes. -/
theorem claim_C5 :
    (∀ (now url : Str) (page : Except Str (List Str × List Part000.DomIframe))
        (r : Part000.ResultRec),
        r ∈ (Part000.scrapeUrl now url page ⟨[], [], []⟩).1.results →
        r.status ≠ ("success".toList) → r.iframe_src = [])
    ∧ (∀ (now ts sp dir : Str) (record : GbpLocation.LocRecord) (o : Except Str Unit),
        (GbpLocation.capturedResult now ts sp dir record o).screenshot_status
            ≠ ("success".toList) →
        (GbpLocation.capturedResult now ts sp dir record o).screenshot_path = []) := by
  constructor
  · intro now url page r hr hs
    cases page with
    | error msg =>
      simp only [Part000.scrapeUrl, List.nil_append, List.mem_singleton] at hr
      subst hr
      rfl
    | ok v =>
      obtain ⟨candidates, doms⟩ := v
      by_cases hu : 0 < (Part000.uniqueSources candidates doms).length
      · simp only [Part000.scrapeUrl, hu, if_true, List.nil_append] at hr
        rcases List.mem_filterMap.mp hr with ⟨src, hsrc, he⟩
        by_cases hp : 0 < src.length
        · simp only [hp, if_true, Option.some.injEq] at he
          rw [← he] at hs
          exact absurd rfl hs
        · simp [hp] at he
      · simp only [Part000.scrapeUrl, hu, if_false, List.nil_append,
          List.mem_singleton] at hr
        subst hr
        rfl
  · intro now ts sp dir record o hs
    cases o with
    | ok a => exact absurd rfl hs
    | error m => rfl

/-- Witness for claim C5 at a concrete input: the record appended on the
no-iframe-found path has an empty artifact field. -/
theorem claim_C5_witness :
    (⟨[], [], [], "no_iframe_found".toList⟩ : Part000.ResultRec).iframe_src = [] :=
  claim_C5.1 [] [] (Except.ok ([], [])) ⟨[], [], [], "no_iframe_found".toList⟩
    (by decide) (by decide)

/-- Claim C6.  The per-job page is closed on every exit path: both in
`GBPIframeScraper.scrapeUrl` and in
`GoogleMapsDirectionsScreenshot.captureDirectionsScreenshot` the lifecycle
trace is open-then-close for every possible job outcome, because the
`finally` block closes the page after success and after a caught
exception alike. -/
theorem claim_C6 :
    (∀ (now url : Str) (page : Except Str (List Str × List Part000.DomIframe))
        (st : Part000.ScraperState),
        (Part000.scrapeUrl now url page st).2 = [PageEvent.opened, PageEvent.closed])
    ∧ (∀ (now ts sp dir : Str) (record : GbpLocation.LocRecord) (o : Except Str Unit)
        (st : GbpLocation.LocState),
        (GbpLocation.captureDirectionsScreenshot now ts sp dir record o st).2
          = [PageEvent.opened, PageEvent.closed]) := by
  constructor
  · intro now url page st
    cases page with
    | error msg => rfl
    | ok v =>
      obtain ⟨candidates, doms⟩ := v
      by_cases hu : 0 < (Part000.uniqueSources candidates doms).length
      · simp [Part000.scrapeUrl, hu]
      · simp [Part000.scrapeUrl, hu]
  · intro now ts sp dir record o st
    cases o with
    | ok a => rfl
    | error m => rfl

/-- Claim C7, amended.  The two pipelines disagree on empty input:
`GBPIframeScraper.scrape` throws the fatal load error before any job is
dispatched or any file is saved, exactly as claimed, while
`GoogleBusinessProfileScraper.processAllRecords` merely logs a warning and
returns normally — it executes no job and persists nothing, but it does not
surface a fatal load error to the caller. -/
theorem claim_C7 (now outputPath dir : Str)
    (pageOf : Str → Except Str (List Str × List Part000.DomIframe))
    (f : BrowserSearch.BSRecord → Except Str BrowserSearch.Screenshot) :
    ((Part000.scrape now [] pageOf outputPath).result
        = Except.error ("No URLs found to scrape".toList)
      ∧ (Part000.scrape now [] pageOf outputPath).jobsRun = 0
      ∧ (Part000.scrape now [] pageOf outputPath).savedFiles = [])
    ∧ BrowserSearch.processAllRecords now dir f [] = Except.ok ([], 0, []) :=
  ⟨⟨rfl, rfl, rfl⟩, rfl⟩

/-- Claim C7 counterexample: on an empty record list the browser-search
batch pipeline returns normally with no error value — it does not abort
with a fatal load error surfaced to the caller, contradicting the claim for
this pipeline. -/
theorem claim_C7_counterexample :
    BrowserSearch.processAllRecords [] [] (fun _ => Except.error ("x".toList)) []
      = Except.ok ([], 0, []) := rfl

/-- Claim C8.  Result persistence is idempotent in content and leaves the
serialized collection unchanged: saving twice from the same scraper state
writes identical files (the only state change of the first save is the
derived `onlyGBPSuccessRecords` field, which the serialization does not
read), and the JSON sink of the browser-search variant persists exactly the
results collection it is given. -/
theorem claim_C8 (st : Part000.ScraperState) (outputPath dir : Str)
    (results : List BrowserSearch.ProcResult) :
    (Part000.saveResultsToCsv outputPath ((Part000.saveResultsToCsv outputPath st).1)).2
        = (Part000.saveResultsToCsv outputPath st).2
    ∧ ((Part000.saveResultsToCsv outputPath st).1).results = st.results
    ∧ ((Part000.saveResultsToCsv outputPath st).1).errors = st.errors
    ∧ (BrowserSearch.saveResults dir results).content = results := by
  refine ⟨?_, ?_, ?_, rfl⟩
  · by_cases he : st.errors = [] <;> simp [Part000.saveResultsToCsv, he]
  · by_cases he : st.errors = [] <;> simp [Part000.saveResultsToCsv, he]
  · by_cases he : st.errors = [] <;> simp [Part000.saveResultsToCsv, he]

/-- Claim C9.  The URL loader prepends `https://` to any non-empty trimmed
first-column value that does not already start with `http://` or
`https://`; rows whose first column is empty or whitespace-only are
skipped; consequently every loaded URL starts with `http://` or
`https://`. -/
theorem claim_C9 :
    (∀ url : Str, jsTrim url ≠ [] →
        jsStartsWith (jsTrim url) ("http://".toList) = false →
        jsStartsWith (jsTrim url) ("https://".toList) = false →
        Part000.rowUrl url = some (("https://".toList) ++ jsTrim url))
    ∧ (∀ url : Str, jsTrim url = [] → Part000.rowUrl url = none)
    ∧ (∀ (rows : List Str) (u : Str), u ∈ Part000.readUrlsFromCsv rows →
        jsStartsWith u ("http://".toList) = true
          ∨ jsStartsWith u ("https://".toList) = true) := by
  refine ⟨?_, ?_, ?_⟩
  · intro url h1 h2 h3
    have hu : url ≠ [] := by
      intro he
      subst he
      exact h1 rfl
    have hcond : (!jsStartsWith (jsTrim url) ("http://".toList)
        && !jsStartsWith (jsTrim url) ("https://".toList)) = true := by
      rw [h2, h3]
      rfl
    unfold Part000.rowUrl
    rw [if_pos ⟨hu, h1⟩, if_pos hcond]
  · intro url h
    simp only [Part000.rowUrl]
    rw [if_neg]
    intro hc
    exact hc.2 h
  · intro rows u hu
    rcases List.mem_filterMap.mp hu with ⟨row, hrow, he⟩
    unfold Part000.rowUrl at he
    split at he
    · split at he
      · have h2 := Option.some.inj he
        subst h2
        exact Or.inr (jsStartsWith_append _ _)
      · rename_i hcond
        have h2 := Option.some.inj he
        subst h2
        have h3 : (!jsStartsWith (jsTrim row) ("http://".toList)
            && !jsStartsWith (jsTrim row) ("https://".toList)) = false := by
          cases hb : (!jsStartsWith (jsTrim row) ("http://".toList)
              && !jsStartsWith (jsTrim row) ("https://".toList)) with
          | false => rfl
          | true => exact absurd hb hcond
        cases hA : jsStartsWith (jsTrim row) ("http://".toList) with
        | true => exact Or.inl rfl
        | false =>
          cases hB : jsStartsWith (jsTrim row) ("https://".toList) with
          | true => exact Or.inr rfl
          | false =>
            rw [hA, hB] at h3
            exact absurd h3 (by decide)
    · exact absurd he (by simp)

/-- Witness for claim C9 at a concrete input: a bare domain gets the
`https://` scheme prepended. -/
theorem claim_C9_witness :
    Part000.rowUrl ("example.com".toList) = some ("https://example.com".toList) := by
  have h := claim_C9.1 ("example.com".toList) (by decide) (by decide) (by decide)
  exact h.trans (by decide)

/-- Claim C10.  Every element returned by `extractIframeSources` passes
`isGoogleMapsEmbed` (the push is guarded by that test, over whatever raw
captures the regex engine produced from the HTML), the returned list has no
duplicates (the Set dedup), and `isGoogleMapsEmbed` is false on `null`,
`undefined` and the empty string. -/
theorem claim_C10 :
    (∀ (candidates : List Str) (src : Str),
        src ∈ Part000.extractIframeSources candidates →
        Part000.isGoogleMapsEmbed (some src) = true)
    ∧ (∀ candidates : List Str, (Part000.extractIframeSources candidates).Nodup)
    ∧ Part000.isGoogleMapsEmbed none = false
    ∧ Part000.isGoogleMapsEmbed (some []) = false := by
  refine ⟨?_, ?_, rfl, rfl⟩
  · intro candidates src h
    have h2 := mem_jsSetDedup _ _ h
    have h3 := (List.mem_filter.mp h2).2
    simp only [Bool.and_eq_true] at h3
    exact h3.2
  · intro candidates
    exact jsSetDedup_nodup _

/-- Witness for claim C10 at a concrete input: a Google-Maps embed URL that
survives extraction satisfies the membership test. -/
theorem claim_C10_witness :
    Part000.isGoogleMapsEmbed (some ("https://www.google.com/maps/embed?pb=1".toList))
      = true :=
  claim_C10.1 ["https://www.google.com/maps/embed?pb=1".toList] _ (by decide)

end GbpEmbed
